import Mathlib

/-
  Formal model of the libdatachannel client example (examples/client/main.cpp).

  The example program keeps two global registries keyed by session token
  (peerConnectionMap and dataChannelMap, both std::unordered_map), a
  websocket signaling handler (ws->onMessage), a per-connection setup
  function (createPeerConnection), data-channel message handlers
  (dc->onMessage), the interactive offer loop in main, and a static
  reception counter with adaptive sampling frequency (printReceived).

  Peer-connection and data-channel objects are opaque transport handles;
  we model them by natural-number handle ids drawn from fresh counters.
  Weak pointers are modelled by the result of lock(): an Option that is
  none when the referent is gone.  JSON values produced by the external
  JSON library are modelled by an inductive type, and an incoming text
  frame carries the outcome of json::parse (none when parsing throws).
-/

/-- A JSON value as produced by the JSON library used for signaling
envelopes (nlohmann::json in the source). -/
inductive Json where
  | jnull
  | jbool (b : Bool)
  | jnum (n : Int)
  | jstr (s : String)
  | jarr (elems : List Json)
  | jobj (fields : List (String × Json))

/-- Lookup of a key among the fields of a JSON object. -/
def lookupField (key : String) : List (String × Json) → Option Json
  | [] => none
  | (k, v) :: rest => if k = key then some v else lookupField key rest

/-- Model of message.find(key): returns the value when the JSON value is an
object containing the key, and none otherwise (nlohmann find returns end()
on non-objects and on missing keys). -/
def findField (j : Json) (key : String) : Option Json :=
  match j with
  | .jobj fields => lookupField key fields
  | _ => none

/-- Model of it->get<string>(): succeeds exactly when the JSON value is a
string; on any other value the source throws a type error. -/
def asString : Json → Option String
  | .jstr s => some s
  | _ => none

/-- Model of message[key].get<string>() as used for description, candidate
and mid: yields the string when the field is present and is a string, and
fails (the source throws) otherwise. -/
def getStringField (j : Json) (key : String) : Option String :=
  match findField j key with
  | some v => asString v
  | none => none

/-- The global registries and the fresh-handle supplies of the client:
peerConnectionMap and dataChannelMap from the source, keyed by token. -/
structure AppState where
  peerConnectionMap : List (String × Nat)
  dataChannelMap : List (String × Nat)
  nextPC : Nat
  nextDC : Nat
deriving DecidableEq

/-- The state at program start: both registries empty. -/
def emptyState : AppState :=
  { peerConnectionMap := [], dataChannelMap := [], nextPC := 0, nextDC := 0 }

/-- Model of unordered_map::find on a token-keyed registry. -/
def mapLookup (k : String) : List (String × Nat) → Option Nat
  | [] => none
  | (k2, v) :: rest => if k2 = k then some v else mapLookup k rest

/-- Model of unordered_map::emplace: inserts the pair only when the key is
absent; when the key is already present the map is left unchanged (the
existing mapped value is kept). -/
def emplace (m : List (String × Nat)) (k : String) (v : Nat) : List (String × Nat) :=
  match mapLookup k m with
  | some _ => m
  | none => (k, v) :: m

/-- Registry effect of createPeerConnection(config, wws, token): a fresh
peer-connection handle is built and peerConnectionMap.emplace(token, pc)
is executed; the new handle is returned to the caller either way. -/
def createPeerConnection (st : AppState) (token : String) : AppState × Nat :=
  let pc := st.nextPC
  ({ st with
      peerConnectionMap := emplace st.peerConnectionMap token pc,
      nextPC := st.nextPC + 1 }, pc)

/-- Registry effect of dataChannelMap.emplace(token, dc), executed in the
interactive loop and in the pc->onDataChannel callback.  The spec calls
this operation attachChannel(token, channel). -/
def attachChannel (st : AppState) (token : String) (dc : Nat) : AppState :=
  { st with dataChannelMap := emplace st.dataChannelMap token dc }

/-- Errors that escape the websocket message handler as C++ exceptions:
json::parse throwing on an undecodable payload, and get<string> throwing
on a missing field or on a field of the wrong JSON type. -/
inductive HandlerErr where
  | parseError
  | typeError
deriving DecidableEq

/-- Transport action performed by the websocket handler after resolving a
peer connection: discard the message, apply a remote description, add a
remote candidate, or resolve a connection but apply nothing (a message
type other than offer, answer and candidate falls through). -/
inductive SigAction where
  | discard
  | setRemote (pc : Nat) (sdp : String) (descType : String)
  | addCandidate (pc : Nat) (cand : String) (mid : String)
  | noAction (pc : Nat)
deriving DecidableEq

/-- An incoming websocket frame: a binary frame, or a text frame carrying
the outcome of json::parse on its payload (none when the payload is not
valid JSON, in which case the source throws). -/
inductive WsMessage where
  | binaryFrame (size : Nat)
  | textFrame (parsed : Option Json)

/-- Peer-connection resolution step of ws->onMessage: use the registry
entry when the token is known; otherwise create a connection only for an
offer; otherwise resolve nothing (the handler returns). -/
def resolvePC (st : AppState) (token : String) (ty : String) : AppState × Option Nat :=
  match mapLookup token st.peerConnectionMap with
  | some pc => (st, some pc)
  | none =>
    if ty = "offer" then
      let r := createPeerConnection st token
      (r.1, some r.2)
    else (st, none)

/-- Model of the ws->onMessage signaling handler: binary frames are
ignored; a text frame is parsed as JSON (a parse failure throws); the
token and type fields are read (absence discards the message, a non-string
value throws); the peer connection is resolved via the registry; then the
payload is dispatched by type. -/
def wsOnMessage (st : AppState) (msg : WsMessage) : Except HandlerErr (AppState × SigAction) :=
  match msg with
  | .binaryFrame _ => .ok (st, .discard)
  | .textFrame none => .error .parseError
  | .textFrame (some j) =>
    match findField j "token" with
    | none => .ok (st, .discard)
    | some tokenVal =>
      match asString tokenVal with
      | none => .error .typeError
      | some token =>
        match findField j "type" with
        | none => .ok (st, .discard)
        | some typeVal =>
          match asString typeVal with
          | none => .error .typeError
          | some ty =>
            let r := resolvePC st token ty
            match r.2 with
            | none => .ok (r.1, .discard)
            | some pc =>
              if ty = "offer" ∨ ty = "answer" then
                match getStringField j "description" with
                | none => .error .typeError
                | some sdp => .ok (r.1, .setRemote pc sdp ty)
              else if ty = "candidate" then
                match getStringField j "candidate", getStringField j "mid" with
                | some cand, some mid => .ok (r.1, .addCandidate pc cand mid)
                | _, _ => .error .typeError
              else .ok (r.1, .noAction pc)

/-- A well-formed offer envelope with the given token and description. -/
def offerJson (token sdp : String) : Json :=
  .jobj [("token", .jstr token), ("type", .jstr "offer"), ("description", .jstr sdp)]

/-- Outcome of one iteration of the interactive loop in main: leave the
loop, skip the input and prompt again, or offer to the entered token with
a freshly created peer connection and data channel. -/
inductive LoopOutcome where
  | exit (st : AppState)
  | skip (st : AppState)
  | offered (st : AppState) (pc : Nat) (dc : Nat)
deriving DecidableEq

/-- One iteration of the interactive loop in main: an empty input breaks
the loop; an input equal to the local token is skipped with continue; any
other token gets createPeerConnection, a fresh data channel, and a
dataChannelMap.emplace of that channel. -/
def loopIteration (localTok : String) (st : AppState) (input : String) : LoopOutcome :=
  if input = "" then .exit st
  else if input = localTok then .skip st
  else
    let r := createPeerConnection st input
    let dc := r.1.nextDC
    let st2 := { r.1 with nextDC := r.1.nextDC + 1 }
    let st3 := attachChannel st2 input dc
    .offered st3 r.2 dc

/-- The static state of printReceived: the cumulative reception count and
the current sampling frequency (both C++ long variables that only ever
grow; the values reachable here stay far below any overflow). -/
structure CounterState where
  count : Nat
  freq : Nat
deriving DecidableEq

/-- The initial static state of printReceived: count 0, frequency 100. -/
def counterInit : CounterState := { count := 0, freq := 100 }

/-- One console line produced by a data-channel message handler or by
printReceived.  Truncated text lines carry the 80-unit prefix and stand
for that prefix followed by the ellipsis marker. -/
inductive OutputLine where
  | fullText (token : String) (msg : String)
  | truncatedText (token : String) (pfx : String)
  | binarySize (token : String) (size : Nat)
  | summary (count : Nat) (token : String) (ty : String) (echoed : Bool) (size : Nat)
deriving DecidableEq

/-- Model of printReceived(echoed, token, length, type): the count always
advances; on every frequency-th message a summary line is printed, and
once the count has reached ten times the frequency the frequency is
multiplied by ten, capped at 1000000. -/
def printReceived (echoed : Bool) (token : String) (length : Nat) (ty : String)
    (s : CounterState) : CounterState × List OutputLine :=
  let count := s.count + 1
  if count % s.freq = 0 then
    let line := OutputLine.summary count token ty echoed length
    let freq := if s.freq * 10 ≤ count ∧ s.freq < 1000000 then s.freq * 10 else s.freq
    ({ count := count, freq := freq }, [line])
  else ({ count := count, freq := s.freq }, [])

/-- A data-channel payload: text or binary. -/
inductive Payload where
  | text (s : String)
  | binary (bytes : List Nat)
deriving DecidableEq

/-- The len computed by dc->onMessage. -/
def payloadLen : Payload → Nat
  | .text s => s.length
  | .binary bs => bs.length

/-- The type string passed to printReceived. -/
def payloadType : Payload → String
  | .text _ => "text"
  | .binary _ => "binary"

/-- Result of one dc->onMessage invocation: the updated reception-counter
state, the console lines printed, the payloads sent back over the channel,
and the echoed flag passed to printReceived (none when echo mode is off
and printReceived is not called). -/
structure DcMsgResult where
  counter : CounterState
  outputs : List OutputLine
  sends : List Payload
  echoedArg : Option Bool
deriving DecidableEq

/-- Model of the dc->onMessage handler (identical in the interactive loop
and in pc->onDataChannel).  In echo mode the payload is sent back when the
weak channel pointer still locks, and printReceived is always invoked with
the echoed flag; otherwise a text payload shorter than 80 units is printed
in full, a longer one is printed as its 80-unit prefix plus ellipsis, and
a binary payload is printed only as its size. -/
def dcOnMessage (echoMode : Bool) (wdcLock : Option Unit) (token : String)
    (data : Payload) (cs : CounterState) : DcMsgResult :=
  let len := payloadLen data
  if echoMode then
    let sendsEchoed : List Payload × Bool :=
      match wdcLock with
      | some _ => ([data], true)
      | none => ([], false)
    let pr := printReceived sendsEchoed.2 token len (payloadType data) cs
    { counter := pr.1, outputs := pr.2, sends := sendsEchoed.1,
      echoedArg := some sendsEchoed.2 }
  else
    match data with
    | .text s =>
      if len < 80 then
        { counter := cs, outputs := [.fullText token s], sends := [], echoedArg := none }
      else
        { counter := cs, outputs := [.truncatedText token (s.take 80)], sends := [],
          echoedArg := none }
    | .binary bs =>
      { counter := cs, outputs := [.binarySize token bs.length], sends := [],
        echoedArg := none }

/-- Model of the pc->onLocalDescription callback: the description is
packaged as a signaling envelope and sent over the websocket only when the
weak websocket pointer still locks; a dead pointer makes the send a silent
no-op. -/
def onLocalDescription (wsLock : Option Unit) (token : String) (descType : String)
    (descStr : String) : List Json :=
  match wsLock with
  | some _ =>
    [Json.jobj [("token", .jstr token), ("type", .jstr descType),
                ("description", .jstr descStr)]]
  | none => []

/-- The count carried by a summary line, when the line is one. -/
def summaryCount : OutputLine → Option Nat
  | .summary c _ _ _ _ => some c
  | _ => none

/-- Deliver the same payload repeatedly to one dc->onMessage handler with
a live channel pointer: starting from counter state cs with the summary
counts acc already recorded, process n further messages, returning the
final counter state and the cumulative counts at which a summary line was
printed. -/
def runMessages (echoMode : Bool) (data : Payload) (token : String) :
    CounterState → List Nat → Nat → CounterState × List Nat
  | cs, acc, 0 => (cs, acc)
  | cs, acc, n + 1 =>
    let r := dcOnMessage echoMode (some ()) token data cs
    runMessages echoMode data token r.counter (acc ++ r.outputs.filterMap summaryCount) n

/-- Deliver the same payload n times to one dc->onMessage handler with a
live channel pointer, starting from the initial counter state; returns the
final counter state and the cumulative counts at which a summary line was
printed. -/
def simulateMessages (echoMode : Bool) (data : Payload) (token : String) (n : Nat) :
    CounterState × List Nat :=
  runMessages echoMode data token counterInit [] n

/-- The reception-counter states reachable by some sequence of calls to
printReceived from the initial static state, with arbitrary arguments at
every call. -/
inductive CounterReachable : CounterState → Prop
  | start : CounterReachable counterInit
  | step (s : CounterState) (e : Bool) (tok : String) (len : Nat) (ty : String) :
      CounterReachable s → CounterReachable (printReceived e tok len ty s).1

/-- Invariant of the reception counter: the frequency is one of the five
powers of ten from 100 to 1000000, and below the cap the count stays under
ten times the frequency. -/
def CounterInv (s : CounterState) : Prop :=
  (s.freq = 100 ∨ s.freq = 1000 ∨ s.freq = 10000 ∨ s.freq = 100000 ∨ s.freq = 1000000) ∧
  (s.freq < 1000000 → s.count < s.freq * 10)

/-
  Helper lemmas shared by several results below.
-/

theorem mapLookup_emplace_self (m : List (String × Nat)) (k : String) (v : Nat) :
    mapLookup k (emplace m k v) = some ((mapLookup k m).getD v) := by
  unfold emplace
  cases h : mapLookup k m with
  | some w => simp [h]
  | none => simp [mapLookup]

theorem mapLookup_emplace_other (m : List (String × Nat)) (k k2 : String) (v : Nat)
    (h : k2 ≠ k) : mapLookup k2 (emplace m k v) = mapLookup k2 m := by
  unfold emplace
  cases hm : mapLookup k m with
  | some w => rfl
  | none => simp [mapLookup, Ne.symm h]

theorem counterInv_mk (c f : Nat) :
    CounterInv { count := c, freq := f } ↔
      ((f = 100 ∨ f = 1000 ∨ f = 10000 ∨ f = 100000 ∨ f = 1000000) ∧
       (f < 1000000 → c < f * 10)) := Iff.rfl

theorem counterInv_of_reachable (s : CounterState) (h : CounterReachable s) : CounterInv s := by
  induction h with
  | start => exact ⟨Or.inl rfl, fun _ => by decide⟩
  | step s e tok len ty hs ih =>
    obtain ⟨hpow, hcnt⟩ := ih
    by_cases hmod : (s.count + 1) % s.freq = 0
    · by_cases hc : s.freq * 10 ≤ s.count + 1 ∧ s.freq < 1000000
      · have hval : (printReceived e tok len ty s).1
            = { count := s.count + 1, freq := s.freq * 10 } := by
          simp [printReceived, hmod, hc]
        rw [hval, counterInv_mk]
        omega
      · have hval : (printReceived e tok len ty s).1
            = { count := s.count + 1, freq := s.freq } := by
          simp [printReceived, hmod, hc]
        rw [hval, counterInv_mk]
        omega
    · have hne : s.count + 1 ≠ s.freq * 10 := by
        intro he
        apply hmod
        rw [he]
        exact Nat.mul_mod_right _ _
      have hval : (printReceived e tok len ty s).1
          = { count := s.count + 1, freq := s.freq } := by
        simp [printReceived, hmod]
      rw [hval, counterInv_mk]
      omega

theorem runMessages_add (em : Bool) (data : Payload) (tok : String) (cs : CounterState)
    (acc : List Nat) (m n : Nat) :
    runMessages em data tok cs acc (m + n)
      = runMessages em data tok (runMessages em data tok cs acc m).1
          (runMessages em data tok cs acc m).2 n := by
  induction m generalizing cs acc with
  | zero =>
    rw [Nat.zero_add]
    rfl
  | succ k ih =>
    have hs : k + 1 + n = (k + n) + 1 := by omega
    rw [hs]
    simp only [runMessages]
    exact ih _ _

theorem runMessages_add_eq {em : Bool} {data : Payload} {tok : String}
    {cs cs2 : CounterState} {acc acc2 : List Nat} {m : Nat}
    (h : runMessages em data tok cs acc m = (cs2, acc2)) (n : Nat) :
    runMessages em data tok cs acc (m + n) = runMessages em data tok cs2 acc2 n := by
  rw [runMessages_add, h]

theorem runMessages_text_noecho (s tok : String) (cs : CounterState) (acc : List Nat)
    (n : Nat) : runMessages false (Payload.text s) tok cs acc n = (cs, acc) := by
  induction n generalizing cs acc with
  | zero => rfl
  | succ k ih =>
    simp only [runMessages]
    by_cases hlen : s.length < 80
    · simp [dcOnMessage, payloadLen, hlen, summaryCount, ih]
    · simp [dcOnMessage, payloadLen, hlen, summaryCount, ih]

/-
  Claim results.
-/

/-- C2: across every sequence of calls to printReceived, the sampling
frequency is non-decreasing, changes only by being multiplied by 10, such
a multiplication happens only at the call at which the cumulative count
reaches frequency times 10, and the frequency never exceeds 1000000. -/
theorem c2_freq_monotone_tenfold (s : CounterState) (e : Bool) (tok : String)
    (len : Nat) (ty : String) (h : CounterReachable s) :
    s.freq ≤ ((printReceived e tok len ty s).1).freq ∧
    (((printReceived e tok len ty s).1).freq = s.freq ∨
     ((printReceived e tok len ty s).1).freq = s.freq * 10) ∧
    (((printReceived e tok len ty s).1).freq ≠ s.freq → s.count + 1 = s.freq * 10) ∧
    s.freq ≤ 1000000 := by
  obtain ⟨hpow, hcnt⟩ := counterInv_of_reachable s h
  by_cases hmod : (s.count + 1) % s.freq = 0
  · by_cases hc : s.freq * 10 ≤ s.count + 1 ∧ s.freq < 1000000
    · have hf : ((printReceived e tok len ty s).1).freq = s.freq * 10 := by
        simp [printReceived, hmod, hc]
      rw [hf]
      omega
    · have hf : ((printReceived e tok len ty s).1).freq = s.freq := by
        simp [printReceived, hmod, hc]
      rw [hf]
      omega
  · have hf : ((printReceived e tok len ty s).1).freq = s.freq := by
      simp [printReceived, hmod]
    rw [hf]
    omega

/-- Witness for C2 at the initial counter state with concrete arguments. -/
theorem c2_freq_monotone_tenfold_witness :
    CounterReachable { count := 0, freq := 100 } ∧
    ({ count := 0, freq := 100 } : CounterState).freq
        ≤ ((printReceived true "AB12" 5 "text" { count := 0, freq := 100 }).1).freq ∧
    (((printReceived true "AB12" 5 "text" { count := 0, freq := 100 }).1).freq
        = ({ count := 0, freq := 100 } : CounterState).freq ∨
     ((printReceived true "AB12" 5 "text" { count := 0, freq := 100 }).1).freq
        = ({ count := 0, freq := 100 } : CounterState).freq * 10) ∧
    (((printReceived true "AB12" 5 "text" { count := 0, freq := 100 }).1).freq
        ≠ ({ count := 0, freq := 100 } : CounterState).freq →
      ({ count := 0, freq := 100 } : CounterState).count + 1
        = ({ count := 0, freq := 100 } : CounterState).freq * 10) ∧
    ({ count := 0, freq := 100 } : CounterState).freq ≤ 1000000 :=
  ⟨CounterReachable.start,
   c2_freq_monotone_tenfold { count := 0, freq := 100 } true "AB12" 5 "text"
     CounterReachable.start⟩

/-- C3 counterexample: attaching a second channel for the same token does
not replace the first one; the registry keeps the first channel, so the
claimed last-write-wins behavior fails. -/
theorem c3_attach_last_write_cex :
    mapLookup "AB12"
        (attachChannel (attachChannel emptyState "AB12" 7) "AB12" 8).dataChannelMap
      = some 7 ∧
    mapLookup "AB12"
        (attachChannel (attachChannel emptyState "AB12" 7) "AB12" 8).dataChannelMap
      ≠ some 8 := by
  constructor <;> decide

/-- C3 amended: attachChannel records the channel for a token with at most
one channel tracked per token, and a later attachChannel for the same
token is a no-op that keeps the earlier channel (first write wins);
entries of other tokens are untouched. -/
theorem c3_attach_first_write_wins (st : AppState) (token : String) (dc : Nat)
    (t2 : String) (h2 : t2 ≠ token) :
    mapLookup token (attachChannel st token dc).dataChannelMap
      = some ((mapLookup token st.dataChannelMap).getD dc) ∧
    mapLookup t2 (attachChannel st token dc).dataChannelMap
      = mapLookup t2 st.dataChannelMap := by
  constructor
  · simpa [attachChannel] using mapLookup_emplace_self st.dataChannelMap token dc
  · simpa [attachChannel] using mapLookup_emplace_other st.dataChannelMap token t2 dc h2

/-- Witness for the amended C3 at a concrete registry. -/
theorem c3_attach_first_write_wins_witness :
    ("ZZ99" : String) ≠ "AB12" ∧
    (mapLookup "AB12" (attachChannel emptyState "AB12" 7).dataChannelMap
        = some ((mapLookup "AB12" emptyState.dataChannelMap).getD 7) ∧
     mapLookup "ZZ99" (attachChannel emptyState "AB12" 7).dataChannelMap
        = mapLookup "ZZ99" emptyState.dataChannelMap) :=
  ⟨by decide, c3_attach_first_write_wins emptyState "AB12" 7 "ZZ99" (by decide)⟩

/-- C8: in the interactive loop, an input equal to the local token is
skipped: no peer connection or data channel is created, the state is
unchanged, and the loop continues prompting. -/
theorem c8_self_token_rejected (st : AppState) (localTok : String) (h : localTok ≠ "") :
    loopIteration localTok st localTok = .skip st := by
  simp [loopIteration, h]

/-- Witness for C8 at a concrete local token. -/
theorem c8_self_token_rejected_witness :
    ("AB12" : String) ≠ "" ∧ loopIteration "AB12" emptyState "AB12" = .skip emptyState :=
  ⟨by decide, c8_self_token_rejected emptyState "AB12" (by decide)⟩

/-- C9: a callback over a dead weak handle degrades to a no-op: the
local-description callback sends nothing when the websocket pointer no
longer locks, and the echo path of dc->onMessage with a dead channel
pointer sends nothing and records echoed as false. -/
theorem c9_dead_handle_noop (token descType descStr t2 : String) (data : Payload)
    (cs : CounterState) :
    onLocalDescription none token descType descStr = [] ∧
    (dcOnMessage true none t2 data cs).sends = [] ∧
    (dcOnMessage true none t2 data cs).echoedArg = some false := by
  refine ⟨rfl, ?_, ?_⟩ <;> simp [dcOnMessage]

/-- C10: offering interactively to a token that already has a registered
peer connection creates a fresh connection handle but does not replace the
registry entry: the peer-connection map is unchanged and the token still
resolves to the original connection. -/
theorem c10_existing_token_kept (st : AppState) (localTok t : String) (pc0 : Nat)
    (h1 : t ≠ "") (h2 : t ≠ localTok) (h3 : mapLookup t st.peerConnectionMap = some pc0) :
    ∃ st3 dc,
      loopIteration localTok st t = .offered st3 st.nextPC dc ∧
      st3.peerConnectionMap = st.peerConnectionMap ∧
      mapLookup t st3.peerConnectionMap = some pc0 := by
  have hmap : (attachChannel { (createPeerConnection st t).1 with nextDC := (createPeerConnection st t).1.nextDC + 1 } t (createPeerConnection st t).1.nextDC).peerConnectionMap = st.peerConnectionMap := by
    simp [attachChannel, createPeerConnection, emplace, h3]
  refine ⟨attachChannel { (createPeerConnection st t).1 with nextDC := (createPeerConnection st t).1.nextDC + 1 } t (createPeerConnection st t).1.nextDC, (createPeerConnection st t).1.nextDC, ?_, hmap, ?_⟩
  · simp [loopIteration, if_neg h1, if_neg h2, createPeerConnection]
  · rw [hmap]
    exact h3

/-- Witness for C10 at a concrete registry that already maps the token. -/
theorem c10_existing_token_kept_witness :
    ("XY34" : String) ≠ "" ∧ ("XY34" : String) ≠ "AB12" ∧
    mapLookup "XY34"
        ({ emptyState with peerConnectionMap := [("XY34", 5)] } : AppState).peerConnectionMap
      = some 5 ∧
    (∃ st3 dc,
      loopIteration "AB12" { emptyState with peerConnectionMap := [("XY34", 5)] } "XY34"
        = .offered st3 ({ emptyState with peerConnectionMap := [("XY34", 5)] } : AppState).nextPC dc ∧
      st3.peerConnectionMap
        = ({ emptyState with peerConnectionMap := [("XY34", 5)] } : AppState).peerConnectionMap ∧
      mapLookup "XY34" st3.peerConnectionMap = some 5) :=
  ⟨by decide, by decide, by decide,
   c10_existing_token_kept { emptyState with peerConnectionMap := [("XY34", 5)] }
     "AB12" "XY34" 5 (by decide) (by decide) (by decide)⟩

/-- C5: processing the same well-formed offer envelope twice resolves the
same peer connection both times and leaves the registry after the second
processing identical to the registry after the first: lookup-or-create is
idempotent and no duplicate session is inserted. -/
theorem c5_offer_idempotent (st : AppState) (t sdp : String) :
    ∃ st1 pc,
      wsOnMessage st (.textFrame (some (offerJson t sdp)))
        = .ok (st1, .setRemote pc sdp "offer") ∧
      wsOnMessage st1 (.textFrame (some (offerJson t sdp)))
        = .ok (st1, .setRemote pc sdp "offer") ∧
      mapLookup t st1.peerConnectionMap = some pc := by
  cases h : mapLookup t st.peerConnectionMap with
  | some pc =>
    refine ⟨st, pc, ?_, ?_, h⟩ <;>
      simp [wsOnMessage, offerJson, findField, lookupField, asString, getStringField,
            resolvePC, h]
  | none =>
    have hl : mapLookup t (emplace st.peerConnectionMap t st.nextPC) = some st.nextPC := by
      rw [mapLookup_emplace_self, h]
      rfl
    refine ⟨(createPeerConnection st t).1, st.nextPC, ?_, ?_, ?_⟩
    · simp [wsOnMessage, offerJson, findField, lookupField, asString, getStringField,
            resolvePC, h, createPeerConnection]
    · simp [wsOnMessage, offerJson, findField, lookupField, asString, getStringField,
            resolvePC, createPeerConnection, hl]
    · simpa [createPeerConnection] using hl

/-- C6: a signaling message whose token is unknown to the registry and
whose type is not offer is discarded: the state is returned unchanged and
no session is created. -/
theorem c6_unknown_token_non_offer (st : AppState) (j : Json) (t ty : String)
    (htok : findField j "token" = some (.jstr t))
    (hty : findField j "type" = some (.jstr ty))
    (hun : mapLookup t st.peerConnectionMap = none)
    (hne : ty ≠ "offer") :
    wsOnMessage st (.textFrame (some j)) = .ok (st, .discard) := by
  simp [wsOnMessage, htok, hty, asString, resolvePC, hun, hne]

/-- Witness for C6 on a concrete candidate-type envelope with an unknown
token. -/
theorem c6_unknown_token_non_offer_witness :
    findField (Json.jobj [("token", Json.jstr "XY34"), ("type", Json.jstr "candidate")]) "token"
        = some (Json.jstr "XY34") ∧
    findField (Json.jobj [("token", Json.jstr "XY34"), ("type", Json.jstr "candidate")]) "type"
        = some (Json.jstr "candidate") ∧
    mapLookup "XY34" emptyState.peerConnectionMap = none ∧
    ("candidate" : String) ≠ "offer" ∧
    wsOnMessage emptyState
        (.textFrame (some (Json.jobj
          [("token", Json.jstr "XY34"), ("type", Json.jstr "candidate")])))
      = .ok (emptyState, .discard) :=
  ⟨rfl, rfl, rfl, by decide,
   c6_unknown_token_non_offer emptyState
     (Json.jobj [("token", Json.jstr "XY34"), ("type", Json.jstr "candidate")])
     "XY34" "candidate" rfl rfl rfl (by decide)⟩

/-- C4 counterexample: a text frame whose payload is not valid JSON is not
silently discarded; the handler raises the parse exception, so the claimed
silent-discard behavior fails for undecodable payloads. -/
theorem c4_undecodable_payload_throws :
    wsOnMessage emptyState (.textFrame none) = .error HandlerErr.parseError ∧
    wsOnMessage emptyState (.textFrame none) ≠ .ok (emptyState, .discard) :=
  ⟨rfl, fun h => nomatch h⟩

/-- C4 amended: binary frames and decoded envelopes missing the token or
type field are silently discarded with the registry unchanged, while a
text payload that is not decodable JSON makes the handler raise a parse
exception instead of being silently discarded. -/
theorem c4_malformed_discard (st : AppState) (n : Nat) (j1 j2 : Json) (t : String)
    (h1 : findField j1 "token" = none)
    (h2 : findField j2 "token" = some (.jstr t))
    (h3 : findField j2 "type" = none) :
    wsOnMessage st (.binaryFrame n) = .ok (st, .discard) ∧
    wsOnMessage st (.textFrame (some j1)) = .ok (st, .discard) ∧
    wsOnMessage st (.textFrame (some j2)) = .ok (st, .discard) ∧
    wsOnMessage st (.textFrame none) = .error .parseError := by
  refine ⟨rfl, ?_, ?_, rfl⟩
  · simp [wsOnMessage, h1]
  · simp [wsOnMessage, h2, h3, asString]

/-- Witness for the amended C4 on concrete malformed envelopes. -/
theorem c4_malformed_discard_witness :
    findField (Json.jobj []) "token" = none ∧
    findField (Json.jobj [("token", Json.jstr "AB12")]) "token" = some (Json.jstr "AB12") ∧
    findField (Json.jobj [("token", Json.jstr "AB12")]) "type" = none ∧
    (wsOnMessage emptyState (.binaryFrame 3) = .ok (emptyState, .discard) ∧
     wsOnMessage emptyState (.textFrame (some (Json.jobj []))) = .ok (emptyState, .discard) ∧
     wsOnMessage emptyState (.textFrame (some (Json.jobj [("token", Json.jstr "AB12")])))
        = .ok (emptyState, .discard) ∧
     wsOnMessage emptyState (.textFrame none) = .error .parseError) :=
  ⟨rfl, rfl, rfl,
   c4_malformed_discard emptyState 3 (Json.jobj []) (Json.jobj [("token", Json.jstr "AB12")])
     "AB12" rfl rfl rfl⟩

/-- C7: with echo mode disabled, a text message shorter than 80 units is
printed in full, a text message of 80 units or more is printed as its
80-unit prefix followed by the ellipsis marker, and a binary message is
printed only as its size; the output for a binary message depends on its
payload only through its length, so payload bytes are never dumped. -/
theorem c7_print_truncation (lck : Option Unit) (token : String) (sShort sLong : String)
    (bs bs2 : List Nat) (cs : CounterState)
    (hS : sShort.length < 80) (hL : 80 ≤ sLong.length) (hB : bs.length = bs2.length) :
    dcOnMessage false lck token (.text sShort) cs
      = { counter := cs, outputs := [.fullText token sShort], sends := [],
          echoedArg := none } ∧
    dcOnMessage false lck token (.text sLong) cs
      = { counter := cs, outputs := [.truncatedText token (sLong.take 80)], sends := [],
          echoedArg := none } ∧
    dcOnMessage false lck token (.binary bs) cs
      = { counter := cs, outputs := [.binarySize token bs.length], sends := [],
          echoedArg := none } ∧
    dcOnMessage false lck token (.binary bs) cs
      = dcOnMessage false lck token (.binary bs2) cs := by
  refine ⟨?_, ?_, ?_, ?_⟩
  · simp [dcOnMessage, payloadLen, hS]
  · simp [dcOnMessage, payloadLen, Nat.not_lt.mpr hL]
  · simp [dcOnMessage]
  · simp [dcOnMessage, hB]

/-- Witness for C7 at a 79-unit text, an 80-unit text and two distinct
binary payloads of equal length. -/
theorem c7_print_truncation_witness :
    ("AAAAAAAAAAAAAAAAAAAAAAAAAAAAAAAAAAAAAAAAAAAAAAAAAAAAAAAAAAAAAAAAAAAAAAAAAAAAAAA" : String).length < 80 ∧
    80 ≤ ("BBBBBBBBBBBBBBBBBBBBBBBBBBBBBBBBBBBBBBBBBBBBBBBBBBBBBBBBBBBBBBBBBBBBBBBBBBBBBBBB" : String).length ∧
    ([1, 2] : List Nat).length = ([3, 4] : List Nat).length ∧
    (dcOnMessage false (some ()) "XY34"
        (.text "AAAAAAAAAAAAAAAAAAAAAAAAAAAAAAAAAAAAAAAAAAAAAAAAAAAAAAAAAAAAAAAAAAAAAAAAAAAAAAA")
        counterInit
      = { counter := counterInit,
          outputs := [.fullText "XY34"
            "AAAAAAAAAAAAAAAAAAAAAAAAAAAAAAAAAAAAAAAAAAAAAAAAAAAAAAAAAAAAAAAAAAAAAAAAAAAAAAA"],
          sends := [], echoedArg := none } ∧
     dcOnMessage false (some ()) "XY34"
        (.text "BBBBBBBBBBBBBBBBBBBBBBBBBBBBBBBBBBBBBBBBBBBBBBBBBBBBBBBBBBBBBBBBBBBBBBBBBBBBBBBB")
        counterInit
      = { counter := counterInit,
          outputs := [.truncatedText "XY34"
            (("BBBBBBBBBBBBBBBBBBBBBBBBBBBBBBBBBBBBBBBBBBBBBBBBBBBBBBBBBBBBBBBBBBBBBBBBBBBBBBBB" : String).take 80)],
          sends := [], echoedArg := none } ∧
     dcOnMessage false (some ()) "XY34" (.binary [1, 2]) counterInit
      = { counter := counterInit, outputs := [.binarySize "XY34" ([1, 2] : List Nat).length],
          sends := [], echoedArg := none } ∧
     dcOnMessage false (some ()) "XY34" (.binary [1, 2]) counterInit
      = dcOnMessage false (some ()) "XY34" (.binary [3, 4]) counterInit) :=
  ⟨by decide, by decide, by decide,
   c7_print_truncation (some ()) "XY34"
     "AAAAAAAAAAAAAAAAAAAAAAAAAAAAAAAAAAAAAAAAAAAAAAAAAAAAAAAAAAAAAAAAAAAAAAAAAAAAAAA"
     "BBBBBBBBBBBBBBBBBBBBBBBBBBBBBBBBBBBBBBBBBBBBBBBBBBBBBBBBBBBBBBBBBBBBBBBBBBBBBBBB"
     [1, 2] [3, 4] counterInit (by decide) (by decide) (by decide)⟩

/-- C1 counterexample: with echo mode disabled the data-channel handler
never calls printReceived, so after 1050 received text messages no
diagnostic summary line at all has been emitted, refuting the claimed ten
summary lines. -/
theorem c1_echo_disabled_no_summaries :
    (simulateMessages false (Payload.text "ping") "XY34" 1050).2 = [] ∧
    (simulateMessages false (Payload.text "ping") "XY34" 1050).2.length ≠ 10 := by
  have h := runMessages_text_noecho "ping" "XY34" counterInit [] 1050
  constructor
  · show (runMessages false (Payload.text "ping") "XY34" counterInit [] 1050).2 = []
    rw [h]
  · show (runMessages false (Payload.text "ping") "XY34" counterInit [] 1050).2.length ≠ 10
    rw [h]
    decide

set_option maxRecDepth 8000 in
/-- C1 amended: with echo mode enabled, after 1050 text messages exactly
one summary line is emitted at each of the cumulative counts 100 through
1000 (ten lines), the frequency has then become 1000, and the next
summary occurs at message 2000. -/
theorem c1_echo_enabled_summary_schedule :
    simulateMessages true (Payload.text "ping") "XY34" 1050
      = ({ count := 1050, freq := 1000 },
         [100, 200, 300, 400, 500, 600, 700, 800, 900, 1000]) ∧
    (simulateMessages true (Payload.text "ping") "XY34" 2000).2
      = [100, 200, 300, 400, 500, 600, 700, 800, 900, 1000, 2000] := by
  have hA : runMessages true (Payload.text "ping") "XY34"
      { count := 0, freq := 100 } [] 250
      = ({ count := 250, freq := 100 }, [100, 200]) := by decide
  have hB : runMessages true (Payload.text "ping") "XY34"
      { count := 250, freq := 100 } [100, 200] 250
      = ({ count := 500, freq := 100 }, [100, 200, 300, 400, 500]) := by decide
  have hC : runMessages true (Payload.text "ping") "XY34"
      { count := 500, freq := 100 } [100, 200, 300, 400, 500] 250
      = ({ count := 750, freq := 100 }, [100, 200, 300, 400, 500, 600, 700]) := by decide
  have hD : runMessages true (Payload.text "ping") "XY34"
      { count := 750, freq := 100 } [100, 200, 300, 400, 500, 600, 700] 250
      = ({ count := 1000, freq := 1000 },
         [100, 200, 300, 400, 500, 600, 700, 800, 900, 1000]) := by decide
  have hE : runMessages true (Payload.text "ping") "XY34"
      { count := 1000, freq := 1000 }
      [100, 200, 300, 400, 500, 600, 700, 800, 900, 1000] 50
      = ({ count := 1050, freq := 1000 },
         [100, 200, 300, 400, 500, 600, 700, 800, 900, 1000]) := by decide
  have hF : runMessages true (Payload.text "ping") "XY34"
      { count := 1050, freq := 1000 }
      [100, 200, 300, 400, 500, 600, 700, 800, 900, 1000] 250
      = ({ count := 1300, freq := 1000 },
         [100, 200, 300, 400, 500, 600, 700, 800, 900, 1000]) := by decide
  have hG : runMessages true (Payload.text "ping") "XY34"
      { count := 1300, freq := 1000 }
      [100, 200, 300, 400, 500, 600, 700, 800, 900, 1000] 250
      = ({ count := 1550, freq := 1000 },
         [100, 200, 300, 400, 500, 600, 700, 800, 900, 1000]) := by decide
  have hH : runMessages true (Payload.text "ping") "XY34"
      { count := 1550, freq := 1000 }
      [100, 200, 300, 400, 500, 600, 700, 800, 900, 1000] 250
      = ({ count := 1800, freq := 1000 },
         [100, 200, 300, 400, 500, 600, 700, 800, 900, 1000]) := by decide
  have hI : runMessages true (Payload.text "ping") "XY34"
      { count := 1800, freq := 1000 }
      [100, 200, 300, 400, 500, 600, 700, 800, 900, 1000] 200
      = ({ count := 2000, freq := 1000 },
         [100, 200, 300, 400, 500, 600, 700, 800, 900, 1000, 2000]) := by decide
  constructor
  · show runMessages true (Payload.text "ping") "XY34"
      { count := 0, freq := 100 } [] (250 + (250 + (250 + (250 + 50)))) = _
    rw [runMessages_add_eq hA, runMessages_add_eq hB, runMessages_add_eq hC,
        runMessages_add_eq hD]
    exact hE
  · show (runMessages true (Payload.text "ping") "XY34"
      { count := 0, freq := 100 } []
      (250 + (250 + (250 + (250 + (50 + (250 + (250 + (250 + 200))))))))).2 = _
    rw [runMessages_add_eq hA, runMessages_add_eq hB, runMessages_add_eq hC,
        runMessages_add_eq hD, runMessages_add_eq hE, runMessages_add_eq hF,
        runMessages_add_eq hG, runMessages_add_eq hH, hI]
